import Mathlib

/-!
Verification of the Compound wallet risk scoring pipeline
(`compound_risk_scorer.py`): activity simulator, feature extractor,
risk scorer and explanation generator, with the batch driver's
per-wallet error fallback.

Python floats are modelled as rationals (`ℚ`), Python ints as `ℤ`/`ℕ`,
timestamps as integer instants measured in seconds, and the numpy
pseudo-random generator as an explicit state type threaded through the
simulator.
-/

/-- Transaction kinds drawn by the simulator (`supply`, `borrow`,
`repay`, `withdraw`). -/
inductive TxType
  | supply
  | borrow
  | repay
  | withdraw
deriving DecidableEq, Repr

/-- Asset symbols used by the simulator and extractor. -/
inductive Asset
  | ETH
  | DAI
  | USDC
  | USDT
  | WBTC
deriving DecidableEq, Repr

/-- One simulated transaction (dict built at lines 82-88 of
`compound_risk_scorer.py`). -/
structure Transaction where
  timestamp : ℤ
  type : TxType
  asset : Asset
  amount : ℚ
  tx_hash : String
deriving DecidableEq, Repr

/-- One simulated liquidation event (lines 96-101). -/
structure Liquidation where
  timestamp : ℤ
  liquidated_amount : ℚ
  collateral_seized : ℚ
  asset : Asset
deriving DecidableEq, Repr

/-- A current position in one asset (lines 107-110). -/
structure Position where
  supplied : ℚ
  borrowed : ℚ
deriving DecidableEq, Repr

/-- The record returned by `_simulate_compound_data` (lines 112-119);
the positions dict is modelled as an association list. -/
structure WalletActivity where
  wallet_address : String
  transactions : List Transaction
  liquidations : List Liquidation
  current_positions : List (Asset × Position)
  first_interaction : Option ℤ
  last_interaction : Option ℤ
deriving DecidableEq, Repr

/-- The feature dict produced by `extract_features` (lines 121-192). -/
structure FeatureSet where
  total_transactions : ℕ
  liquidation_count : ℕ
  account_age_days : ℤ
  days_since_last_activity : ℤ
  activity_frequency : ℚ
  supply_ratio : ℚ
  borrow_ratio : ℚ
  repay_ratio : ℚ
  total_supply_volume : ℚ
  total_borrow_volume : ℚ
  total_repay_volume : ℚ
  repayment_ratio : ℚ
  asset_diversity : ℕ
  volatile_asset_ratio : ℚ
  active_positions : ℕ
  current_utilization : ℚ
  avg_liquidation_amount : ℚ
  total_liquidated_value : ℚ
  days_since_last_liquidation : ℤ
deriving DecidableEq, Repr

/-- `self.risk_weights['liquidation_penalty']` (line 35). -/
def liquidation_penalty : ℤ := 200

/-- `self.risk_weights['volatility_penalty']` (line 37). -/
def volatility_penalty : ℤ := 100

/-- `self.risk_weights['frequency_bonus']` (line 38). -/
def frequency_bonus : ℤ := 50

/-- `self.risk_weights['repayment_bonus']` (line 39). -/
def repayment_bonus : ℤ := 100

/-- `self.risk_weights['diversification_bonus']` (line 40). -/
def diversification_bonus : ℤ := 75

/-- Liquidation penalty term of `calculate_risk_score` (lines 201-203):
`base_score -= features['liquidation_count'] * 200`. -/
def liqCountAdj (f : FeatureSet) : ℤ :=
  -((f.liquidation_count : ℤ) * liquidation_penalty)

/-- Recent liquidation penalty (lines 205-209). -/
def recentLiqAdj (f : FeatureSet) : ℤ :=
  if f.days_since_last_liquidation < 30 then -100
  else if f.days_since_last_liquidation < 90 then -50
  else 0

/-- Repayment behaviour bonus/penalty (lines 211-215). -/
def repaymentAdj (f : FeatureSet) : ℤ :=
  if f.repayment_ratio > 9/10 then repayment_bonus
  else if f.repayment_ratio < 1/2 then -repayment_bonus
  else 0

/-- Current utilization penalty (lines 217-221). -/
def utilizationAdj (f : FeatureSet) : ℤ :=
  if f.current_utilization > 8/10 then -150
  else if f.current_utilization > 6/10 then -75
  else 0

/-- Activity frequency bonus/penalty (lines 223-227). -/
def frequencyAdj (f : FeatureSet) : ℤ :=
  if f.activity_frequency > 2 then frequency_bonus
  else if f.activity_frequency < 1/2 then -50
  else 0

/-- Asset diversification bonus/penalty (lines 229-233). -/
def diversityAdj (f : FeatureSet) : ℤ :=
  if f.asset_diversity ≥ 3 then diversification_bonus
  else if f.asset_diversity = 1 then -25
  else 0

/-- Volatile asset penalty (lines 235-237). -/
def volatilityAdj (f : FeatureSet) : ℤ :=
  if f.volatile_asset_ratio > 7/10 then -volatility_penalty
  else 0

/-- Account age bonus/penalty (lines 239-243). -/
def accountAgeAdj (f : FeatureSet) : ℤ :=
  if f.account_age_days > 365 then 50
  else if f.account_age_days < 30 then -50
  else 0

/-- Recent activity bonus/penalty (lines 245-249). -/
def recentActivityAdj (f : FeatureSet) : ℤ :=
  if f.days_since_last_activity < 7 then 25
  else if f.days_since_last_activity > 90 then -75
  else 0

/-- The additive sum computed into `base_score` by
`calculate_risk_score` before the final clamp (lines 199-249).  The
Python code applies the adjustments by successive `+=`/`-=`; the sum
here lists the same terms in the same order. -/
def rawScore (f : FeatureSet) : ℤ :=
  500 + liqCountAdj f + recentLiqAdj f + repaymentAdj f + utilizationAdj f
    + frequencyAdj f + diversityAdj f + volatilityAdj f + accountAgeAdj f
    + recentActivityAdj f

/-- `calculate_risk_score` (lines 194-254): the additive sum clamped to
`[0, 1000]` (`max(0, min(1000, base_score))`, line 252); the Python
`int(...)` on line 254 is the identity because every term is an int. -/
def calculate_risk_score (f : FeatureSet) : ℤ :=
  max 0 (min 1000 (rawScore f))

/-- `generate_risk_explanation` (lines 256-281).  The `score` argument
is accepted but never read, exactly as in the Python source. -/
def generate_risk_explanation (features : FeatureSet) (score : ℤ) : String :=
  let explanations : List String :=
    (if features.liquidation_count > 0 then
       ["Liquidated " ++ toString features.liquidation_count ++ " time(s)"]
     else [])
    ++ (if features.repayment_ratio > 9/10 then ["Excellent repayment history"]
        else if features.repayment_ratio < 1/2 then ["Poor repayment history"]
        else [])
    ++ (if features.current_utilization > 8/10 then ["High current utilization"]
        else [])
    ++ (if features.activity_frequency > 2 then ["Active user"]
        else if features.activity_frequency < 1/2 then ["Inactive user"]
        else [])
    ++ (if features.asset_diversity ≥ 3 then ["Well-diversified portfolio"]
        else [])
  if explanations.isEmpty then "Standard risk profile"
  else String.intercalate "; " explanations

/-- The zero-activity feature set from the spec's concrete scenario
(0 transactions, 0 liquidations, 0 positions): every count, ratio and
volume is 0 and both recency fields are the 999 fallback. -/
def zeroFeatures : FeatureSet where
  total_transactions := 0
  liquidation_count := 0
  account_age_days := 0
  days_since_last_activity := 999
  activity_frequency := 0
  supply_ratio := 0
  borrow_ratio := 0
  repay_ratio := 0
  total_supply_volume := 0
  total_borrow_volume := 0
  total_repay_volume := 0
  repayment_ratio := 0
  asset_diversity := 0
  volatile_asset_ratio := 0
  active_positions := 0
  current_utilization := 0
  avg_liquidation_amount := 0
  total_liquidated_value := 0
  days_since_last_liquidation := 999

/-- The feature set of the spec's second concrete scenario:
`liquidation_count = 2`, `days_since_last_liquidation = 10`, and every
other feature at a neutral default that fires no other scoring branch
(repayment ratio in `[0.5, 0.9]`, utilization at most `0.6`, activity
frequency in `[0.5, 2]`, diversity 2, volatile ratio at most `0.7`,
account age in `[30, 365]`, last activity within `[7, 90]` days). -/
def liq2Features : FeatureSet where
  total_transactions := 10
  liquidation_count := 2
  account_age_days := 100
  days_since_last_activity := 30
  activity_frequency := 1
  supply_ratio := 1/4
  borrow_ratio := 1/4
  repay_ratio := 1/4
  total_supply_volume := 100
  total_borrow_volume := 100
  total_repay_volume := 70
  repayment_ratio := 7/10
  asset_diversity := 2
  volatile_asset_ratio := 1/2
  active_positions := 2
  current_utilization := 1/2
  avg_liquidation_amount := 100
  total_liquidated_value := 200
  days_since_last_liquidation := 10

/-- Days between the anchor instant `now` and an earlier instant `t`,
both measured in seconds: the Python `(datetime.now() - t).days`, i.e.
floor division of the difference by 86400. -/
def daysBetween (now t : ℤ) : ℤ := Int.fdiv (now - t) 86400

/-- `extract_features` (lines 121-192), parameterised on the anchor
instant that the Python code reads from `datetime.now()`. -/
def extract_features (now : ℤ) (wallet_data : WalletActivity) : FeatureSet :=
  let transactions := wallet_data.transactions
  let liquidations := wallet_data.liquidations
  let positions := wallet_data.current_positions
  let tstamps := transactions.map (fun tx => tx.timestamp)
  let account_age_days : ℤ :=
    if transactions.isEmpty then 0 else daysBetween now (tstamps.min?.getD 0)
  let total_borrow_volume : ℚ :=
    ((transactions.filter (fun tx => decide (tx.type = TxType.borrow))).map
      (fun tx => tx.amount)).sum
  let total_repay_volume : ℚ :=
    ((transactions.filter (fun tx => decide (tx.type = TxType.repay))).map
      (fun tx => tx.amount)).sum
  let total_supplied : ℚ := (positions.map (fun kv => kv.2.supplied)).sum
  let total_borrowed : ℚ := (positions.map (fun kv => kv.2.borrowed)).sum
  { total_transactions := transactions.length
    liquidation_count := liquidations.length
    account_age_days := account_age_days
    days_since_last_activity :=
      if transactions.isEmpty then 999 else daysBetween now (tstamps.max?.getD 0)
    activity_frequency :=
      if transactions.isEmpty then 0
      else (transactions.length : ℚ) / ((max account_age_days 1 : ℤ) : ℚ) * 30
    supply_ratio :=
      (((transactions.filter (fun tx => decide (tx.type = TxType.supply))).length : ℚ))
        / ((max transactions.length 1 : ℕ) : ℚ)
    borrow_ratio :=
      (((transactions.filter (fun tx => decide (tx.type = TxType.borrow))).length : ℚ))
        / ((max transactions.length 1 : ℕ) : ℚ)
    repay_ratio :=
      (((transactions.filter (fun tx => decide (tx.type = TxType.repay))).length : ℚ))
        / ((max transactions.length 1 : ℕ) : ℚ)
    total_supply_volume :=
      ((transactions.filter (fun tx => decide (tx.type = TxType.supply))).map
        (fun tx => tx.amount)).sum
    total_borrow_volume := total_borrow_volume
    total_repay_volume := total_repay_volume
    repayment_ratio := total_repay_volume / max total_borrow_volume 1
    asset_diversity := (transactions.map (fun tx => tx.asset)).dedup.length
    volatile_asset_ratio :=
      (((transactions.filter
          (fun tx => decide (tx.asset ∈ [Asset.ETH, Asset.WBTC]))).length : ℚ))
        / ((max transactions.length 1 : ℕ) : ℚ)
    active_positions :=
      (positions.filter (fun kv => decide (0 < kv.2.supplied ∨ 0 < kv.2.borrowed))).length
    current_utilization := total_borrowed / max total_supplied 1
    avg_liquidation_amount :=
      if liquidations.isEmpty then 0
      else ((liquidations.map (fun l => l.liquidated_amount)).sum) / (liquidations.length : ℚ)
    total_liquidated_value :=
      if liquidations.isEmpty then 0
      else (liquidations.map (fun l => l.liquidated_amount)).sum
    days_since_last_liquidation :=
      if liquidations.isEmpty then 999
      else (liquidations.map (fun l => daysBetween now l.timestamp)).min?.getD 0 }

/-- An activity record with no transactions, liquidations or
positions. -/
def emptyActivity : WalletActivity where
  wallet_address := "0x0"
  transactions := []
  liquidations := []
  current_positions := []
  first_interaction := none
  last_interaction := none

/-- Abstract interface to the numpy pseudo-random stream used by
`_simulate_compound_data`: a state type `σ` together with one
state-passing operation per kind of draw the Python code performs.
`seed` models `np.random.seed(n)`: it returns the generator state
determined by the seed alone, discarding the previous state. -/
structure SimRNG (σ : Type) where
  seed : ℕ → σ
  poisson : ℕ → σ → ℕ × σ
  randint : ℕ → ℕ → σ → ℕ × σ
  choiceTxType : σ → TxType × σ
  choiceAsset : σ → Asset × σ
  lognormal : ℚ → ℚ → σ → ℚ × σ
  hexChars : ℕ → σ → String × σ
  random : σ → ℚ × σ
  choiceLiqAsset : σ → Asset × σ

/-- The transaction loop of `_simulate_compound_data` (lines 71-88):
per transaction draw day offset, type, asset, amount and a 64-char hex
transaction id, in that order. -/
def genTransactions {σ : Type} (G : SimRNG σ) (now : ℤ) : ℕ → σ → List Transaction × σ
  | 0, s => ([], s)
  | n + 1, s =>
    let d := G.randint 0 180 s
    let ty := G.choiceTxType d.2
    let a := G.choiceAsset ty.2
    let amt := G.lognormal 7 (3/2) a.2
    let h := G.hexChars 64 amt.2
    let rest := genTransactions G now n h.2
    ({ timestamp := now - 86400 * (d.1 : ℤ), type := ty.1, asset := a.1,
       amount := amt.1, tx_hash := "0x" ++ h.1 } :: rest.1, rest.2)

/-- The liquidation loop of `_simulate_compound_data` (lines 94-101):
per liquidation draw day offset, liquidated amount, collateral seized
and asset, in that order. -/
def genLiquidations {σ : Type} (G : SimRNG σ) (now : ℤ) : ℕ → σ → List Liquidation × σ
  | 0, s => ([], s)
  | n + 1, s =>
    let d := G.randint 0 180 s
    let la := G.lognormal 8 1 d.2
    let cs := G.lognormal 8 1 la.2
    let a := G.choiceLiqAsset cs.2
    let rest := genLiquidations G now n a.2
    ({ timestamp := now - 86400 * (d.1 : ℤ), liquidated_amount := la.1,
       collateral_seized := cs.1, asset := a.1 } :: rest.1, rest.2)

/-- The position loop of `_simulate_compound_data` (lines 104-110): for
each asset, with probability 0.4 a position is held; its supplied and
borrowed values each draw a uniform sample first and a log-normal
sample only when below the threshold, matching Python's evaluation
order for `A if C else B`. -/
def genPositions {σ : Type} (G : SimRNG σ) : List Asset → σ → List (Asset × Position) × σ
  | [], s => ([], s)
  | a :: rest, s =>
    let r := G.random s
    if r.1 < 4/10 then
      let r1 := G.random r.2
      let sup := if r1.1 < 7/10 then G.lognormal 6 2 r1.2 else ((0:ℚ), r1.2)
      let r2 := G.random sup.2
      let bor := if r2.1 < 1/2 then G.lognormal 5 2 r2.2 else ((0:ℚ), r2.2)
      let tail := genPositions G rest bor.2
      ((a, { supplied := sup.1, borrowed := bor.1 }) :: tail.1, tail.2)
    else
      let tail := genPositions G rest r.2
      (tail.1, tail.2)

/-- Value of one hex digit, accepting the digits Python's `int(s, 16)`
accepts (0-9, a-f, A-F); `none` otherwise. -/
def hexDigit? (c : Char) : Option ℕ :=
  if Char.toNat '0' ≤ c.toNat ∧ c.toNat ≤ Char.toNat '9' then
    some (c.toNat - Char.toNat '0')
  else if Char.toNat 'a' ≤ c.toNat ∧ c.toNat ≤ Char.toNat 'f' then
    some (c.toNat - Char.toNat 'a' + 10)
  else if Char.toNat 'A' ≤ c.toNat ∧ c.toNat ≤ Char.toNat 'F' then
    some (c.toNat - Char.toNat 'A' + 10)
  else none

/-- Base-16 evaluation of a digit string with accumulator, failing on
the first non-hex character, as `int(s, 16)` does. -/
def hexAcc : List Char → ℕ → Option ℕ
  | [], acc => some acc
  | c :: cs, acc =>
    match hexDigit? c with
    | some d => hexAcc cs (16 * acc + d)
    | none => none

/-- The last 8 characters of a string (all of it when shorter), the
Python slice `wallet_address[-8:]`. -/
def last8 (s : String) : List Char :=
  s.toList.drop (s.toList.length - 8)

/-- The seed computed on line 63:
`int(wallet_address[-8:], 16) % 2**32`; `none` when `int` would raise
(empty slice or a non-hex character). -/
def seedOf (addr : String) : Option ℕ :=
  match last8 addr with
  | [] => none
  | c :: cs => (hexAcc (c :: cs) 0).map (fun v => v % 2 ^ 32)

/-- `_simulate_compound_data` (lines 58-119).  `preState` is the state
of the process-wide numpy generator before the call; line 63 re-seeds
the generator from the wallet address, so the body never reads
`preState`.  Returns `none` when seed derivation raises. -/
def simulate_compound_data {σ : Type} (G : SimRNG σ) (preState : σ)
    (addr : String) (now : ℤ) : Option WalletActivity :=
  match seedOf addr with
  | none => none
  | some sd =>
    let s0 := G.seed sd
    let nt := G.poisson 15 s0
    let txs := genTransactions G now nt.1 nt.2
    let r := G.random txs.2
    let liqs :=
      if r.1 < 15/100 then
        let nl := G.poisson 1 r.2
        genLiquidations G now (nl.1 + 1) nl.2
      else ([], r.2)
    let ps := genPositions G [Asset.ETH, Asset.DAI, Asset.USDC, Asset.USDT, Asset.WBTC] liqs.2
    some { wallet_address := addr
           transactions := txs.1
           liquidations := liqs.1
           current_positions := ps.1
           first_interaction := (txs.1.map (fun tx => tx.timestamp)).min?
           last_interaction := (txs.1.map (fun tx => tx.timestamp)).max? }

/-- A concrete deterministic generator instance over state `ℕ`, used to
exercise the simulator theorems on concrete inputs. -/
def natRNG : SimRNG ℕ where
  seed := fun n => n
  poisson := fun m s => (m % 4, s + 1)
  randint := fun lo _ s => (lo + s % 7, s + 1)
  choiceTxType := fun s => (TxType.supply, s + 1)
  choiceAsset := fun s => (Asset.ETH, s + 1)
  lognormal := fun loc scale s => (loc + scale, s + 1)
  hexChars := fun _ s => ("", s + 1)
  random := fun s => (1/2, s + 1)
  choiceLiqAsset := fun s => (Asset.DAI, s + 1)

/-- One output row of `process_wallet_list` (lines 309-318 and
325-334). -/
structure ScoreRow where
  wallet_id : String
  score : ℤ
  explanation : String
  liquidation_count : ℕ
  repayment_ratio : ℚ
  current_utilization : ℚ
  activity_frequency : ℚ
  asset_diversity : ℕ
deriving DecidableEq, Repr

/-- The default neutral row appended by the `except` branch of
`process_wallet_list` (lines 325-334). -/
def errorRow (wallet : String) : ScoreRow where
  wallet_id := wallet
  score := 500
  explanation := "Error in processing"
  liquidation_count := 0
  repayment_ratio := 0
  current_utilization := 0
  activity_frequency := 0
  asset_diversity := 0

/-- One iteration of the loop body of `process_wallet_list`
(lines 296-334).  The per-wallet pipeline (fetch/simulate → extract →
score → explain → row construction, lines 298-318) is abstracted as a
fallible function so that an exception raised in any of those stages is
one `Except.error` outcome; the `try`/`except` becomes the match. -/
def handleWallet (pipeline : String → Except String ScoreRow) (wallet : String) : ScoreRow :=
  match pipeline wallet with
  | Except.ok row => row
  | Except.error _ => errorRow wallet

/-- The accumulation loop of `process_wallet_list` (lines 293-335): one
row per input wallet, in input order; CSV writing is outside the model.
-/
def process_wallet_list (pipeline : String → Except String ScoreRow)
    (wallets : List String) : List ScoreRow :=
  wallets.map (handleWallet pipeline)

/-- C1: for every FeatureSet `f` (arbitrary values of every field),
`calculate_risk_score f` is an integer (its type is `ℤ`) lying in the
closed interval `[0, 1000]`. -/
theorem score_bounds (f : FeatureSet) :
    0 ≤ calculate_risk_score f ∧ calculate_risk_score f ≤ 1000 := by
  unfold calculate_risk_score
  exact ⟨le_max_left 0 _, max_le (by norm_num) (min_le_left 1000 _)⟩

/-- C2 counterexample: on the zero-activity feature set the score is
not 305 as the spec's trace asserts (the trace omits the −100
repayment-ratio penalty that fires because `0 < 0.5`, and its
arithmetic for the remaining branches is off). -/
theorem zero_activity_score_ne_305 : calculate_risk_score zeroFeatures ≠ 305 := by
  norm_num [calculate_risk_score, rawScore, liqCountAdj, recentLiqAdj, repaymentAdj,
    utilizationAdj, frequencyAdj, diversityAdj, volatilityAdj, accountAgeAdj,
    recentActivityAdj, zeroFeatures, liquidation_penalty, volatility_penalty,
    frequency_bonus, repayment_bonus, diversification_bonus]

/-- C2 (amended): on the zero-activity feature set the fired branches
are repayment −100 (ratio 0 < 0.5), low frequency −50, young account
−50 and inactivity −75, so `calculate_risk_score` returns
500 − 275 = 225. -/
theorem zero_activity_score : calculate_risk_score zeroFeatures = 225 := by
  norm_num [calculate_risk_score, rawScore, liqCountAdj, recentLiqAdj, repaymentAdj,
    utilizationAdj, frequencyAdj, diversityAdj, volatilityAdj, accountAgeAdj,
    recentActivityAdj, zeroFeatures, liquidation_penalty, volatility_penalty,
    frequency_bonus, repayment_bonus, diversification_bonus]

/-- C3 counterexample: on the zero-activity feature set the explanation
is not the single clause "Inactive user": the repayment-ratio clause
also fires (0 < 0.5 appends "Poor repayment history" first). -/
theorem zero_activity_explanation_ne : generate_risk_explanation zeroFeatures 305 ≠ "Inactive user" := by
  norm_num [generate_risk_explanation, zeroFeatures]
  decide

/-- C3 (amended): on the zero-activity feature set
`generate_risk_explanation` returns exactly
"Poor repayment history; Inactive user" (for any score argument): the
repayment clause fires because the ratio 0 is below 0.5, then the
inactivity clause fires, and the two are joined with "; ". -/
theorem zero_activity_explanation (s : ℤ) :
    generate_risk_explanation zeroFeatures s = "Poor repayment history; Inactive user" := by
  norm_num [generate_risk_explanation, zeroFeatures]
  rfl

/-- Raising `liquidation_count` by one lowers the pre-clamp sum by
exactly 200 and leaves every other adjustment unchanged. -/
theorem rawScore_liquidation_succ (f : FeatureSet) (k : ℕ) :
    rawScore { f with liquidation_count := k + 1 }
      = rawScore { f with liquidation_count := k } - 200 := by
  simp only [rawScore, liqCountAdj, recentLiqAdj, repaymentAdj, utilizationAdj,
    frequencyAdj, diversityAdj, volatilityAdj, accountAgeAdj, recentActivityAdj,
    liquidation_penalty]
  push_cast
  ring

/-- C6: for every FeatureSet `f` and every natural `k`, the score with
`liquidation_count := k + 1` is at most the score with
`liquidation_count := k` (all other features held fixed): increasing
the liquidation count never increases the score. -/
theorem score_antitone_in_liquidations (f : FeatureSet) (k : ℕ) :
    calculate_risk_score { f with liquidation_count := k + 1 }
      ≤ calculate_risk_score { f with liquidation_count := k } := by
  unfold calculate_risk_score
  have h := rawScore_liquidation_succ f k
  exact max_le_max le_rfl (min_le_min le_rfl (by omega))

/-- C8: with `liquidation_count = 2`, `days_since_last_liquidation = 10`
and all other features at neutral defaults, the score is exactly 0 and
the pre-clamp sum is exactly 0 (so the lower clamp does not engage). -/
theorem liq2_score_zero :
    calculate_risk_score liq2Features = 0 ∧ rawScore liq2Features = 0 := by
  norm_num [calculate_risk_score, rawScore, liqCountAdj, recentLiqAdj, repaymentAdj,
    utilizationAdj, frequencyAdj, diversityAdj, volatilityAdj, accountAgeAdj,
    recentActivityAdj, liq2Features, liquidation_penalty, volatility_penalty,
    frequency_bonus, repayment_bonus, diversification_bonus]

/-- C9: for every FeatureSet the pre-clamp sum is at most 800 (base 500
plus at most +100 repayment, +50 frequency, +75 diversity, +50 age,
+25 recency) and hence the clamped score is at most 800: the upper
clamp at 1000 can never engage. -/
theorem score_le_800 (f : FeatureSet) :
    rawScore f ≤ 800 ∧ calculate_risk_score f ≤ 800 := by
  have h1 : liqCountAdj f ≤ 0 := by
    unfold liqCountAdj liquidation_penalty
    have : (0:ℤ) ≤ (f.liquidation_count : ℤ) * 200 := by positivity
    omega
  have h2 : recentLiqAdj f ≤ 0 := by unfold recentLiqAdj; split_ifs <;> norm_num
  have h3 : repaymentAdj f ≤ 100 := by
    unfold repaymentAdj repayment_bonus; split_ifs <;> norm_num
  have h4 : utilizationAdj f ≤ 0 := by unfold utilizationAdj; split_ifs <;> norm_num
  have h5 : frequencyAdj f ≤ 50 := by
    unfold frequencyAdj frequency_bonus; split_ifs <;> norm_num
  have h6 : diversityAdj f ≤ 75 := by
    unfold diversityAdj diversification_bonus; split_ifs <;> norm_num
  have h7 : volatilityAdj f ≤ 0 := by
    unfold volatilityAdj volatility_penalty; split_ifs <;> norm_num
  have h8 : accountAgeAdj f ≤ 50 := by unfold accountAgeAdj; split_ifs <;> norm_num
  have h9 : recentActivityAdj f ≤ 25 := by
    unfold recentActivityAdj; split_ifs <;> norm_num
  have hraw : rawScore f ≤ 800 := by unfold rawScore; omega
  refine ⟨hraw, ?_⟩
  unfold calculate_risk_score
  exact max_le (by norm_num) (le_trans (min_le_right 1000 _) hraw)

/-- C10: `generate_risk_explanation` never reads its score argument, so
its output on any FeatureSet is the same for any two scores. -/
theorem explanation_ignores_score (f : FeatureSet) (s1 s2 : ℤ) :
    generate_risk_explanation f s1 = generate_risk_explanation f s2 := rfl

/-- C7: for every WalletActivity record, `extract_features` computes
`current_utilization` as the sum of borrowed over all position assets
divided by `max` of the aggregate supplied sum and 1 — the floor is
applied once to the aggregate, so the denominator is at least 1 and the
ratio is well defined for every record, and it equals 0 when there are
no positions. -/
theorem utilization_aggregate_floor (now : ℤ) (wd : WalletActivity) :
    (extract_features now wd).current_utilization
      = ((wd.current_positions.map (fun kv => kv.2.borrowed)).sum)
          / max ((wd.current_positions.map (fun kv => kv.2.supplied)).sum) 1
    ∧ (1:ℚ) ≤ max ((wd.current_positions.map (fun kv => kv.2.supplied)).sum) 1
    ∧ (wd.current_positions = [] → (extract_features now wd).current_utilization = 0) := by
  refine ⟨rfl, le_max_right _ _, fun h => ?_⟩
  simp [extract_features, h]

/-- C7 witness: on the concrete activity record with no positions the
utilization evaluates to 0. -/
theorem utilization_aggregate_floor_witness :
    (extract_features 0 emptyActivity).current_utilization = 0 :=
  (utilization_aggregate_floor 0 emptyActivity).2.2 rfl

/-- When every character of a digit string is hex, base-16 evaluation
succeeds. -/
theorem hexAcc_isSome (cs : List Char) (h : ∀ c ∈ cs, (hexDigit? c).isSome) :
    ∀ acc : ℕ, (hexAcc cs acc).isSome := by
  induction cs with
  | nil => intro acc; simp [hexAcc]
  | cons c cs ih =>
    intro acc
    have hc := h c (List.mem_cons_self c cs)
    obtain ⟨d, hd⟩ := Option.isSome_iff_exists.mp hc
    rw [hexAcc, hd]
    exact ih (fun x hx => h x (List.mem_cons_of_mem c hx)) _

/-- For an address with at least 8 characters whose trailing 8
characters are hex, seed derivation succeeds. -/
theorem seedOf_isSome (addr : String) (hlen : 8 ≤ addr.toList.length)
    (hhex : ∀ c ∈ last8 addr, (hexDigit? c).isSome) : (seedOf addr).isSome := by
  have hlength : (last8 addr).length = 8 := by
    simp only [last8, List.length_drop]
    omega
  cases h8 : last8 addr with
  | nil => rw [h8] at hlength; simp at hlength
  | cons c cs =>
    rw [h8] at hhex
    simp only [seedOf, h8]
    rw [Option.isSome_map']
    exact hexAcc_isSome (c :: cs) hhex 0

/-- C5: for every wallet identifier with at least 8 trailing hex
characters, two calls of the activity generator with the same anchor
instant produce identical WalletActivity records — the same transaction
count and per-transaction timestamp, type, asset, amount and tx id, the
same liquidation list and the same positions — whatever the state of
the process-wide generator before each call, because the generator is
re-seeded from the last 8 hex characters of the identifier interpreted
base-16 and reduced modulo 2^32; moreover the generation succeeds. -/
theorem simulate_deterministic {σ : Type} (G : SimRNG σ) (s1 s2 : σ)
    (addr : String) (now : ℤ)
    (hlen : 8 ≤ addr.toList.length)
    (hhex : ∀ c ∈ last8 addr, (hexDigit? c).isSome) :
    simulate_compound_data G s1 addr now = simulate_compound_data G s2 addr now
    ∧ (simulate_compound_data G s1 addr now).isSome := by
  constructor
  · rfl
  · obtain ⟨sd, hsd⟩ := Option.isSome_iff_exists.mp (seedOf_isSome addr hlen hhex)
    unfold simulate_compound_data
    rw [hsd]
    rfl

/-- C5 witness: for the concrete 8-hex-character address "00abcdef" and
the concrete generator `natRNG`, two calls from distinct pre-states 0
and 1 agree and succeed. -/
theorem simulate_deterministic_witness :
    (8 ≤ ("00abcdef" : String).toList.length
      ∧ ∀ c ∈ last8 "00abcdef", (hexDigit? c).isSome)
    ∧ (simulate_compound_data natRNG 0 "00abcdef" 7 = simulate_compound_data natRNG 1 "00abcdef" 7
       ∧ (simulate_compound_data natRNG 0 "00abcdef" 7).isSome) :=
  ⟨⟨by decide, by decide⟩,
   simulate_deterministic natRNG 0 1 "00abcdef" 7 (by decide) (by decide)⟩

/-- C4: if the per-wallet pipeline fails (raises) exactly on wallet
`wi` at position `i` of the input list, the batch result still has one
row per input wallet in input order, the row at `i` is exactly the
neutral fallback `{score:500, explanation:"Error in processing",
all numeric fields 0}`, and the row at every position holding a
different wallet is identical to the row the non-failing pipeline
produces there. -/
theorem process_error_fallback (p q : String → Except String ScoreRow)
    (ws : List String) (i : ℕ) (wi : String) (msg : String)
    (hwi : ws[i]? = some wi)
    (herr : q wi = Except.error msg)
    (hagree : ∀ w, w ≠ wi → q w = p w) :
    (process_wallet_list q ws).length = ws.length
    ∧ (process_wallet_list q ws)[i]? = some (errorRow wi)
    ∧ ∀ (j : ℕ) (w : String), ws[j]? = some w → w ≠ wi →
        (process_wallet_list q ws)[j]? = (process_wallet_list p ws)[j]? := by
  refine ⟨by simp [process_wallet_list], ?_, ?_⟩
  · rw [process_wallet_list, List.getElem?_map, hwi]
    simp [handleWallet, herr]
  · intro j w hj hw
    rw [process_wallet_list, List.getElem?_map, process_wallet_list, List.getElem?_map, hj]
    simp [handleWallet, hagree w hw]

/-- C4 witness: with the two-wallet list ["aa", "bb"], a pipeline that
fails on "aa" and agrees with the non-failing pipeline elsewhere yields
the fallback row for "aa" and leaves the row of "bb" unchanged. -/
theorem process_error_fallback_witness :
    (process_wallet_list
        (fun w => if w = "aa" then Except.error "boom" else Except.ok (errorRow w))
        ["aa", "bb"]).length = (["aa", "bb"] : List String).length
    ∧ (process_wallet_list
        (fun w => if w = "aa" then Except.error "boom" else Except.ok (errorRow w))
        ["aa", "bb"])[0]? = some (errorRow "aa")
    ∧ ∀ (j : ℕ) (w : String), (["aa", "bb"] : List String)[j]? = some w → w ≠ "aa" →
        (process_wallet_list
            (fun w => if w = "aa" then Except.error "boom" else Except.ok (errorRow w))
            ["aa", "bb"])[j]?
          = (process_wallet_list (fun w => Except.ok (errorRow w)) ["aa", "bb"])[j]? :=
  process_error_fallback (fun w => Except.ok (errorRow w))
    (fun w => if w = "aa" then Except.error "boom" else Except.ok (errorRow w))
    ["aa", "bb"] 0 "aa" "boom" rfl (by simp) (fun w hw => by simp [hw])
